import Mathlib

/-!
Verification of the PV_DEMICE mass-flow engine (src/PV_DEMICE/main.py).

The Python code is embedded shallowly.  Numbers are modelled as exact
reals; pandas columns become functions from the 0-based row position to
the reals (both baseline tables are read with a default RangeIndex, so
row position, calendar-year position and cohort "generation" all live on
the same 0-based axis, exactly as in the source loop
`for generation, row in df.iterrows()`).  NaN handling (`fillna`) is the
identity here because an exact-real model has no missing values.
-/

noncomputable section
open scoped Classical
open Finset

/-! ## Weibull reliability model (main.py lines 437-462)

`weibull_params` computes with complex intermediates: `np.log(x + 0j)`
is the principal complex logarithm of a real number, which for negative
real `x` equals `log|x| + i*pi` (numpy and Mathlib agree on this branch
for the `+0j` boundary).  `np.real_if_close(...).item()` keeps the real
part, and `np.abs(np.exp(...))` is the complex modulus.  The two
definitions below are the alpha and beta entries of the returned dict. -/

/-- Principal complex logarithm of a real number, as in `np.log(x + 0j)`. -/
def clogR (x : ℝ) : ℂ := Complex.log (x : ℂ)

/-- Shape parameter `alpha` of `weibull_params` (main.py lines 443-445):
`real_if_close((log(log(1-cdf1)+0j) - log(log(1-cdf2)+0j)) / (log t1 - log t2))`. -/
def weibull_params_alpha (t1 cdf1 t2 cdf2 : ℝ) : ℝ :=
  ((clogR (Real.log (1 - cdf1)) - clogR (Real.log (1 - cdf2))) /
    ((Real.log t1 : ℂ) - (Real.log t2 : ℂ))).re

/-- Scale parameter `beta` of `weibull_params` (main.py lines 446-453):
`abs(exp((log t2 * (i*pi + log(log(1-cdf1)+0j)) + log t1 * (-i*pi - log(log(1-cdf2)+0j)))
/ (log(log(1-cdf1)+0j) - log(log(1-cdf2)+0j))))`. -/
def weibull_params_beta (t1 cdf1 t2 cdf2 : ℝ) : ℝ :=
  Complex.abs (Complex.exp (
    ((Real.log t2 : ℂ) * ((Real.pi : ℂ) * Complex.I + clogR (Real.log (1 - cdf1)))
      + (Real.log t1 : ℂ) * (-((Real.pi : ℂ) * Complex.I) - clogR (Real.log (1 - cdf2))))
    / (clogR (Real.log (1 - cdf1)) - clogR (Real.log (1 - cdf2)))))

/-- Weibull CDF `1 - exp(-(x/beta)**alpha)` (main.py lines 456-462);
the real power is `Real.rpow`. -/
def weibull_cdf (alpha beta : ℝ) (x : ℝ) : ℝ := 1 - Real.exp (-((x / beta) ^ alpha))

lemma clogR_of_neg {x : ℝ} (hx : x < 0) :
    clogR x = (Real.log (-x) : ℂ) + (Real.pi : ℂ) * Complex.I := by
  apply Complex.ext
  · simp [clogR, Complex.log_re, Complex.abs_ofReal, abs_of_neg hx]
  · simp [clogR, Complex.log_im, Complex.arg_ofReal_of_neg hx]

lemma div_ofReal_re (z : ℂ) (d : ℝ) : (z / (d : ℂ)).re = z.re / d := by
  rw [div_eq_mul_inv, ← Complex.ofReal_inv, div_eq_mul_inv]
  simp [Complex.mul_re]

/-- Real closed form of the fitted shape parameter, for keypoint
probabilities strictly between 0 and 1. -/
lemma weibull_params_alpha_eq (t1 t2 : ℝ) {cdf1 cdf2 : ℝ}
    (h1 : 0 < cdf1) (h1' : cdf1 < 1) (h2 : 0 < cdf2) (h2' : cdf2 < 1) :
    weibull_params_alpha t1 cdf1 t2 cdf2 =
      (Real.log (-Real.log (1 - cdf1)) - Real.log (-Real.log (1 - cdf2))) /
        (Real.log t1 - Real.log t2) := by
  have hL1 : Real.log (1 - cdf1) < 0 := Real.log_neg (by linarith) (by linarith)
  have hL2 : Real.log (1 - cdf2) < 0 := Real.log_neg (by linarith) (by linarith)
  rw [weibull_params_alpha, clogR_of_neg hL1, clogR_of_neg hL2]
  have hnum : ((Real.log (-Real.log (1 - cdf1)) : ℝ) : ℂ) + (Real.pi : ℂ) * Complex.I
      - (((Real.log (-Real.log (1 - cdf2)) : ℝ) : ℂ) + (Real.pi : ℂ) * Complex.I)
      = ((Real.log (-Real.log (1 - cdf1)) - Real.log (-Real.log (1 - cdf2)) : ℝ) : ℂ) := by
    push_cast
    ring
  have hden : ((Real.log t1 : ℝ) : ℂ) - ((Real.log t2 : ℝ) : ℂ)
      = ((Real.log t1 - Real.log t2 : ℝ) : ℂ) := by push_cast; ring
  rw [hnum, hden, div_ofReal_re, Complex.ofReal_re]

/-- Real closed form of the fitted scale parameter, for keypoint
probabilities strictly between 0 and 1. -/
lemma weibull_params_beta_eq (t1 t2 : ℝ) {cdf1 cdf2 : ℝ}
    (h1 : 0 < cdf1) (h1' : cdf1 < 1) (h2 : 0 < cdf2) (h2' : cdf2 < 1) :
    weibull_params_beta t1 cdf1 t2 cdf2 =
      Real.exp ((Real.log t2 * Real.log (-Real.log (1 - cdf1))
        - Real.log t1 * Real.log (-Real.log (1 - cdf2))) /
          (Real.log (-Real.log (1 - cdf1)) - Real.log (-Real.log (1 - cdf2)))) := by
  have hL1 : Real.log (1 - cdf1) < 0 := Real.log_neg (by linarith) (by linarith)
  have hL2 : Real.log (1 - cdf2) < 0 := Real.log_neg (by linarith) (by linarith)
  rw [weibull_params_beta, clogR_of_neg hL1, clogR_of_neg hL2, Complex.abs_exp]
  congr 1
  have hnum : (Real.log t2 : ℂ) * ((Real.pi : ℂ) * Complex.I
        + (((Real.log (-Real.log (1 - cdf1)) : ℝ) : ℂ) + (Real.pi : ℂ) * Complex.I))
      + (Real.log t1 : ℂ) * (-((Real.pi : ℂ) * Complex.I)
        - (((Real.log (-Real.log (1 - cdf2)) : ℝ) : ℂ) + (Real.pi : ℂ) * Complex.I))
      = ((Real.log t2 * Real.log (-Real.log (1 - cdf1))
          - Real.log t1 * Real.log (-Real.log (1 - cdf2)) : ℝ) : ℂ)
        + ((2 * Real.pi * (Real.log t2 - Real.log t1) : ℝ) : ℂ) * Complex.I := by
    push_cast
    ring
  have hden : ((Real.log (-Real.log (1 - cdf1)) : ℝ) : ℂ) + (Real.pi : ℂ) * Complex.I
      - (((Real.log (-Real.log (1 - cdf2)) : ℝ) : ℂ) + (Real.pi : ℂ) * Complex.I)
      = ((Real.log (-Real.log (1 - cdf1)) - Real.log (-Real.log (1 - cdf2)) : ℝ) : ℂ) := by
    push_cast
    ring
  rw [hnum, hden, div_ofReal_re]
  simp

/-- Round trip through one keypoint: the fitted CDF reproduces the first
keypoint exactly, provided the two keypoints have distinct times and
distinct probabilities. -/
lemma weibull_roundtrip_aux {t1 t2 cdf1 cdf2 : ℝ}
    (ht1 : 0 < t1) (ht2 : 0 < t2) (htne : t1 ≠ t2)
    (h1 : 0 < cdf1) (h1' : cdf1 < 1) (h2 : 0 < cdf2) (h2' : cdf2 < 1)
    (hcne : cdf1 ≠ cdf2) :
    weibull_cdf (weibull_params_alpha t1 cdf1 t2 cdf2)
      (weibull_params_beta t1 cdf1 t2 cdf2) t1 = cdf1 := by
  have hL1 : Real.log (1 - cdf1) < 0 := Real.log_neg (by linarith) (by linarith)
  have hL2 : Real.log (1 - cdf2) < 0 := Real.log_neg (by linarith) (by linarith)
  have hL1p : (0:ℝ) < -Real.log (1 - cdf1) := neg_pos.mpr hL1
  have hL2p : (0:ℝ) < -Real.log (1 - cdf2) := neg_pos.mpr hL2
  set u1 := Real.log t1 with hu1
  set u2 := Real.log t2 with hu2
  set a1 := Real.log (-Real.log (1 - cdf1)) with ha1
  set a2 := Real.log (-Real.log (1 - cdf2)) with ha2
  have hu : u1 ≠ u2 := by
    intro h
    exact htne (Real.log_injOn_pos (Set.mem_Ioi.mpr ht1) (Set.mem_Ioi.mpr ht2) h)
  have ha : a1 ≠ a2 := by
    intro h
    have hL : -Real.log (1 - cdf1) = -Real.log (1 - cdf2) :=
      Real.log_injOn_pos (Set.mem_Ioi.mpr hL1p) (Set.mem_Ioi.mpr hL2p) h
    have h1c : (0:ℝ) < 1 - cdf1 := by linarith
    have h2c : (0:ℝ) < 1 - cdf2 := by linarith
    have : (1 : ℝ) - cdf1 = 1 - cdf2 :=
      Real.log_injOn_pos (Set.mem_Ioi.mpr h1c) (Set.mem_Ioi.mpr h2c) (neg_inj.mp hL)
    exact hcne (by linarith)
  rw [weibull_params_alpha_eq t1 t2 h1 h1' h2 h2', weibull_params_beta_eq t1 t2 h1 h1' h2 h2']
  rw [← hu1, ← hu2, ← ha1, ← ha2]
  set lb := (u2 * a1 - u1 * a2) / (a1 - a2) with hlb
  have hbpos : 0 < Real.exp lb := Real.exp_pos _
  rw [weibull_cdf]
  have htb : 0 < t1 / Real.exp lb := div_pos ht1 hbpos
  rw [Real.rpow_def_of_pos htb, Real.log_div (ne_of_gt ht1) (ne_of_gt hbpos), Real.log_exp]
  have key : (u1 - lb) * ((a1 - a2) / (u1 - u2)) = a1 := by
    rw [hlb]
    field_simp [sub_ne_zero.mpr hu, sub_ne_zero.mpr ha]
    ring
  rw [← hu1, key, Real.exp_log hL1p, neg_neg, Real.exp_log (by linarith : (0:ℝ) < 1 - cdf1)]
  ring

/-- Claim C3 (counterexample): with keypoints (1, 1/2) and (2, 1/2) all of
the claim's hypotheses hold (distinct positive times, probabilities in
(0,1)), yet the fitted CDF does not reproduce the keypoint probability
1/2 at t = 1, missing it by far more than 1e-6: the two keypoint
probabilities coincide, the fit degenerates (division by zero in the
closed form), and no Weibull CDF can pass through both points anyway. -/
theorem c3_counterexample :
    (0:ℝ) < 1 ∧ (0:ℝ) < 2 ∧ (1:ℝ) ≠ 2 ∧ (1/2 : ℝ) ∈ Set.Ioo (0:ℝ) 1 ∧
    |weibull_cdf (weibull_params_alpha 1 (1/2) 2 (1/2))
        (weibull_params_beta 1 (1/2) 2 (1/2)) 1 - 1/2| > 1e-6 := by
  refine ⟨by norm_num, by norm_num, by norm_num, by constructor <;> norm_num, ?_⟩
  have hα : weibull_params_alpha 1 (1/2) 2 (1/2) = 0 := by
    rw [weibull_params_alpha, sub_self, zero_div, Complex.zero_re]
  have hβ : weibull_params_beta 1 (1/2) 2 (1/2) = 1 := by
    rw [weibull_params_beta, sub_self, div_zero, Complex.exp_zero, map_one]
  rw [hα, hβ, weibull_cdf]
  rw [div_one, Real.rpow_zero]
  have hgt : Real.exp (-1) < 1 / 2.7182818283 := by
    rw [Real.exp_neg]
    rw [inv_eq_one_div]
    apply one_div_lt_one_div_of_lt
    · norm_num
    · exact Real.exp_one_gt_d9
  have hpos : Real.exp (-1) > 0 := Real.exp_pos _
  rw [abs_of_pos (by nlinarith)]
  nlinarith

/-- Claim C3 (amended): for keypoints with distinct positive times and
distinct cumulative probabilities in (0,1), fitting Weibull parameters
and evaluating the resulting CDF at both keypoint times reproduces both
probabilities exactly (hence in particular within 1e-6 for the
(t1, 0.5), (t2, 0.9) case). -/
theorem c3_weibull_roundtrip (t1 cdf1 t2 cdf2 : ℝ)
    (ht1 : 0 < t1) (ht2 : 0 < t2) (htne : t1 ≠ t2)
    (h1 : 0 < cdf1) (h1' : cdf1 < 1) (h2 : 0 < cdf2) (h2' : cdf2 < 1)
    (hcne : cdf1 ≠ cdf2) :
    weibull_cdf (weibull_params_alpha t1 cdf1 t2 cdf2)
        (weibull_params_beta t1 cdf1 t2 cdf2) t1 = cdf1 ∧
    weibull_cdf (weibull_params_alpha t1 cdf1 t2 cdf2)
        (weibull_params_beta t1 cdf1 t2 cdf2) t2 = cdf2 := by
  have hswapa : weibull_params_alpha t2 cdf2 t1 cdf1 = weibull_params_alpha t1 cdf1 t2 cdf2 := by
    rw [weibull_params_alpha_eq t2 t1 h2 h2' h1 h1', weibull_params_alpha_eq t1 t2 h1 h1' h2 h2']
    rw [show Real.log (-Real.log (1 - cdf2)) - Real.log (-Real.log (1 - cdf1))
        = -(Real.log (-Real.log (1 - cdf1)) - Real.log (-Real.log (1 - cdf2))) from by ring,
      show Real.log t2 - Real.log t1 = -(Real.log t1 - Real.log t2) from by ring,
      neg_div_neg_eq]
  have hswapb : weibull_params_beta t2 cdf2 t1 cdf1 = weibull_params_beta t1 cdf1 t2 cdf2 := by
    rw [weibull_params_beta_eq t2 t1 h2 h2' h1 h1', weibull_params_beta_eq t1 t2 h1 h1' h2 h2']
    congr 1
    rw [show Real.log t1 * Real.log (-Real.log (1 - cdf2))
          - Real.log t2 * Real.log (-Real.log (1 - cdf1))
        = -(Real.log t2 * Real.log (-Real.log (1 - cdf1))
          - Real.log t1 * Real.log (-Real.log (1 - cdf2))) from by ring,
      show Real.log (-Real.log (1 - cdf2)) - Real.log (-Real.log (1 - cdf1))
        = -(Real.log (-Real.log (1 - cdf1)) - Real.log (-Real.log (1 - cdf2))) from by ring,
      neg_div_neg_eq]
  constructor
  · exact weibull_roundtrip_aux ht1 ht2 htne h1 h1' h2 h2' hcne
  · have h := weibull_roundtrip_aux ht2 ht1 (Ne.symm htne) h2 h2' h1 h1' (Ne.symm hcne)
    rwa [hswapa, hswapb] at h

/-! ## Cohort reliability engine (main.py lines 164-235)

One module generation g is projected through ages 0..n-1.  The source
builds four parallel lists (`areadisposed_failure`,
`areadisposed_degradation`, `activeareacount`, `areapowergen`) by
mutating the accumulators `activearea` and `active`; here the
accumulators become the recursions `aVar` (value of `activearea` before
processing age t) and `kVar` (value of `active + 1` before processing
age t, i.e. the number of nonzero-CDF ages seen so far), and each list
becomes a function of its index.  The CDF list is
`cdf = list(map(f, np.clip(df.index - generation, 0, inf)))`; the clip
is natural-number subtraction `xclip`.  The per-row (install-year)
parameters are `A0 = row.Area`, `eff = row.mod_eff`,
`dr = row.mod_degradation`, `L = row.mod_lifetime`; `repair` and
`repower` are read from the row of the current age
(`df.iloc[age].mod_Repairing` / `mod_Repowering`). -/

/-- Parameters of one generation's trajectory, read from the module table. -/
structure GenParams where
  n : ℕ
  g : ℕ
  A0 : ℝ
  eff : ℝ
  dr : ℝ
  L : ℝ
  repair : ℕ → ℝ
  repower : ℕ → ℝ

/-- Reference irradiance, W/m^2 (main.py line 143). -/
def irradiance_stc : ℝ := 1000

/-- `np.clip(df.index - generation, 0, np.inf)` at index i. -/
def xclip (P : GenParams) (i : ℕ) : ℕ := i - P.g

/-- The cdf list entry at index i: `f` applied to the clipped age. -/
def cdfAt (f : ℝ → ℝ) (P : GenParams) (i : ℕ) : ℝ := f (xclip P i)

/-- Value of the `activearea` accumulator before processing age t
(main.py lines 175, 196, 200). -/
def aVar (f : ℝ → ℝ) (P : GenParams) : ℕ → ℝ
  | 0 => P.A0
  | t + 1 =>
    if cdfAt f P t = 0 then aVar f P t
    else
      if (t : ℝ) = P.L + P.g then
        (aVar f P t * (1 - cdfAt f P t * (1 - P.repair t))) * P.repower t
      else
        aVar f P t * (1 - cdfAt f P t * (1 - P.repair t))

/-- Value of `active + 1` before processing age t (main.py lines 184, 194):
the number of ages less than t with nonzero CDF. -/
def kVar (f : ℝ → ℝ) (P : GenParams) : ℕ → ℕ
  | 0 => 0
  | t + 1 => if cdfAt f P t = 0 then kVar f P t else kVar f P t + 1

/-- `activearea` after the repair-attenuated failure update at age t
(main.py line 196). -/
def a1At (f : ℝ → ℝ) (P : GenParams) (t : ℕ) : ℝ :=
  aVar f P t * (1 - cdfAt f P t * (1 - P.repair t))

/-- List entry `areadisposed_failure[t]` (main.py lines 191, 197). -/
def failAt (f : ℝ → ℝ) (P : GenParams) (t : ℕ) : ℝ :=
  if cdfAt f P t = 0 then 0 else aVar f P t - a1At f P t

/-- List entry `areadisposed_degradation[t]` (main.py lines 191, 198-202):
nonzero only at the age equal to `mod_lifetime + generation`. -/
def degrAt (f : ℝ → ℝ) (P : GenParams) (t : ℕ) : ℝ :=
  if cdfAt f P t = 0 then 0
  else if (t : ℝ) = P.L + P.g then a1At f P t - a1At f P t * P.repower t
  else 0

/-- List entry `activeareacount[t]` as built by the loop, before the
initial-area fix (main.py lines 189, 203). -/
def loopA (f : ℝ → ℝ) (P : GenParams) (t : ℕ) : ℝ :=
  if cdfAt f P t = 0 then 0
  else if (t : ℝ) = P.L + P.g then a1At f P t * P.repower t
  else a1At f P t

/-- List entry `areapowergen[t]` as built by the loop, before the fix
(main.py lines 192, 204). -/
def loopP (f : ℝ → ℝ) (P : GenParams) (t : ℕ) : ℝ :=
  if cdfAt f P t = 0 then 0
  else loopA f P t * P.eff * 0.01 * irradiance_stc * (1 - P.dr / 100) ^ kVar f P t

/-- First list element satisfying the predicate, as the generator
`next((i for i, e in enumerate(x) if e), None)` scans it. -/
def findFirst (p : ℕ → Bool) : List ℕ → Option ℕ
  | [] => none
  | a :: l => if p a then some a else findFirst p l

/-- Index of the first nonzero entry of the clipped-age array x
(main.py line 209). -/
def firstNonzeroIdx (P : GenParams) : Option ℕ :=
  findFirst (fun i => xclip P i != 0) (List.range P.n)

/-- `fixinitialareacount`: one before the first nonzero clip index when it
exists (try branch, main.py line 209), else the last index (except
branch, main.py line 217). -/
def fixIdx (P : GenParams) : ℕ :=
  (firstNonzeroIdx P).elim (P.n - 1) (fun i => i - 1)

/-- True exactly when the except branch runs, i.e. when no index has a
nonzero clipped age; the print in that branch (main.py line 221) is
modelled as this boolean diagnostic. -/
def degenerateDiag (P : GenParams) : Bool :=
  (firstNonzeroIdx P).isNone

/-- Final `activeareacount[t]`: the loop value, plus the one-time initial
area added at `fixIdx` (main.py lines 210, 218). -/
def activeAt (f : ℝ → ℝ) (P : GenParams) (t : ℕ) : ℝ :=
  if t = fixIdx P then loopA f P t + P.A0 else loopA f P t

/-- Final `areapowergen[t]`: at `fixIdx` the source OVERWRITES the entry
with `activeareacount[fix] + Area * mod_eff * 0.01 * irradiance_stc`,
where `activeareacount[fix]` has already been incremented by `Area`
(main.py lines 211-212, 219-220). -/
def powerAt (f : ℝ → ℝ) (P : GenParams) (t : ℕ) : ℝ :=
  if t = fixIdx P then activeAt f P t + P.A0 * P.eff * 0.01 * irradiance_stc
  else loopP f P t

/-- Row of the disposal cohort matrix `Generation_Disposed_byYear`
(main.py line 233): failure plus degradation disposal of this generation
at year position t. -/
def GenerationDisposedByYear (f : ℝ → ℝ) (P : GenParams) (t : ℕ) : ℝ :=
  failAt f P t + degrAt f P t

lemma aVar_succ (f : ℝ → ℝ) (P : GenParams) (t : ℕ) :
    aVar f P (t + 1) = if cdfAt f P t = 0 then aVar f P t else loopA f P t := by
  rw [aVar, loopA, a1At]
  split_ifs <;> rfl

/-- The Weibull CDF vanishes at 0 for nonzero shape. -/
lemma weibull_cdf_zero {alpha : ℝ} (beta : ℝ) (hα : alpha ≠ 0) :
    weibull_cdf alpha beta 0 = 0 := by
  rw [weibull_cdf, zero_div, Real.zero_rpow hα, neg_zero, Real.exp_zero, sub_self]

/-- The Weibull CDF is strictly positive at positive ages for positive
shape and scale. -/
lemma weibull_cdf_pos {alpha beta x : ℝ} (hα : 0 < alpha) (hβ : 0 < beta) (hx : 0 < x) :
    0 < weibull_cdf alpha beta x := by
  rw [weibull_cdf, sub_pos]
  have h : (0:ℝ) < (x / beta) ^ alpha := Real.rpow_pos_of_pos (div_pos hx hβ) _
  calc Real.exp (-((x / beta) ^ alpha)) < Real.exp 0 := Real.exp_lt_exp.mpr (by linarith)
    _ = 1 := Real.exp_zero

/-- The Weibull CDF stays in [0, 1] at nonnegative ages for positive scale. -/
lemma weibull_cdf_mem_Icc {alpha beta x : ℝ} (hβ : 0 < beta) (hx : 0 ≤ x) :
    weibull_cdf alpha beta x ∈ Set.Icc (0:ℝ) 1 := by
  constructor
  · rw [weibull_cdf, sub_nonneg]
    have h : (0:ℝ) ≤ (x / beta) ^ alpha := Real.rpow_nonneg (div_nonneg hx hβ.le) _
    calc Real.exp (-((x / beta) ^ alpha)) ≤ Real.exp 0 := Real.exp_le_exp.mpr (by linarith)
      _ = 1 := Real.exp_zero
  · rw [weibull_cdf]
    have h : (0:ℝ) < Real.exp (-((x / beta) ^ alpha)) := Real.exp_pos _
    linarith

/-- For a genuine Weibull CDF, the cdf list entry vanishes exactly at and
before the install year. -/
lemma cdfAt_eq_zero_iff {alpha beta : ℝ} (P : GenParams) (hα : 0 < alpha) (hβ : 0 < beta)
    (t : ℕ) : cdfAt (weibull_cdf alpha beta) P t = 0 ↔ t ≤ P.g := by
  constructor
  · intro h
    by_contra hgt
    push_neg at hgt
    have hx : 0 < xclip P t := by
      rw [xclip]
      omega
    have hx' : (0:ℝ) < (xclip P t : ℝ) := by exact_mod_cast hx
    have := weibull_cdf_pos hα hβ hx'
    rw [cdfAt] at h
    linarith
  · intro h
    have hx : xclip P t = 0 := by
      rw [xclip]
      omega
    rw [cdfAt, hx, Nat.cast_zero]
    exact weibull_cdf_zero beta (ne_of_gt hα)

lemma cdfAt_ne_zero {alpha beta : ℝ} (P : GenParams) (hα : 0 < alpha) (hβ : 0 < beta)
    {t : ℕ} (h : P.g < t) : cdfAt (weibull_cdf alpha beta) P t ≠ 0 := by
  intro h0
  have := (cdfAt_eq_zero_iff P hα hβ t).mp h0
  omega

/-- Before any nonzero-CDF age, the activearea accumulator still equals
the initial area. -/
lemma aVar_eq_A0 {alpha beta : ℝ} (P : GenParams) (hα : 0 < alpha) (hβ : 0 < beta) :
    ∀ t, t ≤ P.g + 1 → aVar (weibull_cdf alpha beta) P t = P.A0 := by
  intro t
  induction t with
  | zero => intro _; rfl
  | succ k ih =>
    intro hk
    have hkg : k ≤ P.g := by omega
    rw [aVar_succ, if_pos ((cdfAt_eq_zero_iff P hα hβ k).mpr hkg)]
    exact ih (by omega)

/-- The loop's active-area entries vanish at and before the install year. -/
lemma loopA_eq_zero {alpha beta : ℝ} (P : GenParams) (hα : 0 < alpha) (hβ : 0 < beta)
    {t : ℕ} (h : t ≤ P.g) : loopA (weibull_cdf alpha beta) P t = 0 := by
  rw [loopA, if_pos ((cdfAt_eq_zero_iff P hα hβ t).mpr h)]

lemma findFirst_append_some (p : ℕ → Bool) {l1 : List ℕ} (l2 : List ℕ) {a : ℕ}
    (h : findFirst p l1 = some a) : findFirst p (l1 ++ l2) = some a := by
  induction l1 with
  | nil => exact absurd h (by rw [findFirst]; simp)
  | cons b l ih =>
    rw [List.cons_append, findFirst]
    rw [findFirst] at h
    split_ifs with hb
    · rwa [if_pos hb] at h
    · rw [if_neg hb] at h
      exact ih h

lemma findFirst_append_none (p : ℕ → Bool) {l1 : List ℕ} (l2 : List ℕ)
    (h : findFirst p l1 = none) : findFirst p (l1 ++ l2) = findFirst p l2 := by
  induction l1 with
  | nil => rfl
  | cons b l ih =>
    rw [List.cons_append, findFirst]
    rw [findFirst] at h
    split_ifs with hb
    · rw [if_pos hb] at h
      exact absurd h (by simp)
    · rw [if_neg hb] at h
      exact ih h

/-- The first nonzero clip index is g + 1 when it lies in range, else none. -/
lemma firstNonzeroIdx_eq (P : GenParams) :
    firstNonzeroIdx P = if P.g + 1 < P.n then some (P.g + 1) else none := by
  rw [firstNonzeroIdx]
  have key : ∀ n : ℕ, findFirst (fun i => xclip P i != 0) (List.range n)
      = if P.g + 1 < n then some (P.g + 1) else none := by
    intro n
    induction n with
    | zero => rw [List.range_zero, findFirst, if_neg (by omega)]
    | succ m ih =>
      rw [List.range_succ]
      by_cases hm : P.g + 1 < m
      · rw [findFirst_append_some _ _ (by rw [ih, if_pos hm]), if_pos (by omega)]
      · rw [findFirst_append_none _ _ (by rw [ih, if_neg hm])]
        by_cases hm' : P.g + 1 < m + 1
        · have hmg : m = P.g + 1 := by omega
          rw [findFirst, if_pos (by simp [xclip, hmg]), if_pos hm', hmg]
        · have hmg : m ≤ P.g := by omega
          rw [findFirst, if_neg (by simp [xclip]; omega), if_neg hm']
          rw [findFirst]
  exact key P.n

/-- Witness for C3: the typical (t50, 0.5), (t90, 0.9) keypoints with
t50 = 1, t90 = 2 satisfy every hypothesis, and the round trip holds. -/
theorem c3_weibull_roundtrip_witness :
    weibull_cdf (weibull_params_alpha 1 (1/2) 2 (9/10))
        (weibull_params_beta 1 (1/2) 2 (9/10)) 1 = 1/2 ∧
    weibull_cdf (weibull_params_alpha 1 (1/2) 2 (9/10))
        (weibull_params_beta 1 (1/2) 2 (9/10)) 2 = 9/10 :=
  c3_weibull_roundtrip 1 (1/2) 2 (9/10) (by norm_num) (by norm_num) (by norm_num)
    (by norm_num) (by norm_num) (by norm_num) (by norm_num) (by norm_num)

/-- When the install year is inside the horizon, the initial-area fix
lands exactly on the install index. -/
lemma fixIdx_eq_g (P : GenParams) (hg : P.g < P.n) : fixIdx P = P.g := by
  rw [fixIdx, firstNonzeroIdx_eq]
  split_ifs with h
  · simp
  · simp only [Option.elim]
    omega

lemma cdfAt_mem_Icc (alpha beta : ℝ) (P : GenParams) (hβ : 0 < beta) (t : ℕ) :
    cdfAt (weibull_cdf alpha beta) P t ∈ Set.Icc (0:ℝ) 1 := by
  rw [cdfAt]
  exact weibull_cdf_mem_Icc hβ (Nat.cast_nonneg _)

lemma aVar_nonneg (alpha beta : ℝ) (P : GenParams) (hβ : 0 < beta) (hA0 : 0 ≤ P.A0)
    (hrep : ∀ t, P.repair t ∈ Set.Icc (0:ℝ) 1) (hrw : ∀ t, P.repower t ∈ Set.Icc (0:ℝ) 1) :
    ∀ t, 0 ≤ aVar (weibull_cdf alpha beta) P t := by
  intro t
  induction t with
  | zero => exact hA0
  | succ k ih =>
    have hc := cdfAt_mem_Icc alpha beta P hβ k
    have hfac : 0 ≤ 1 - cdfAt (weibull_cdf alpha beta) P k * (1 - P.repair k) := by
      rcases hc with ⟨hc0, hc1⟩
      rcases hrep k with ⟨hr0, hr1⟩
      nlinarith
    rw [aVar]
    split_ifs
    · exact ih
    · exact mul_nonneg (mul_nonneg ih hfac) (hrw k).1
    · exact mul_nonneg ih hfac

lemma loopA_le_aVar (alpha beta : ℝ) (P : GenParams) (hβ : 0 < beta) (hA0 : 0 ≤ P.A0)
    (hrep : ∀ t, P.repair t ∈ Set.Icc (0:ℝ) 1) (hrw : ∀ t, P.repower t ∈ Set.Icc (0:ℝ) 1)
    (t : ℕ) : loopA (weibull_cdf alpha beta) P t ≤ aVar (weibull_cdf alpha beta) P t := by
  have hv := aVar_nonneg alpha beta P hβ hA0 hrep hrw t
  have hc := cdfAt_mem_Icc alpha beta P hβ t
  have hfac0 : 0 ≤ 1 - cdfAt (weibull_cdf alpha beta) P t * (1 - P.repair t) := by
    rcases hc with ⟨hc0, hc1⟩
    rcases hrep t with ⟨hr0, hr1⟩
    nlinarith
  have hfac1 : 1 - cdfAt (weibull_cdf alpha beta) P t * (1 - P.repair t) ≤ 1 := by
    rcases hc with ⟨hc0, hc1⟩
    rcases hrep t with ⟨hr0, hr1⟩
    nlinarith
  have ha1 : a1At (weibull_cdf alpha beta) P t ≤ aVar (weibull_cdf alpha beta) P t := by
    rw [a1At]
    exact mul_le_of_le_one_right hv hfac1
  have ha1n : 0 ≤ a1At (weibull_cdf alpha beta) P t := mul_nonneg hv hfac0
  rw [loopA]
  split_ifs
  · exact hv
  · exact le_trans (mul_le_of_le_one_right ha1n (hrw t).2) ha1
  · exact ha1

/-- For ages at or after install, the trajectory entry at age t equals the
accumulator before age t + 1 (the fix contributes exactly the initial
area at the install index, where the loop entry is 0). -/
lemma activeAt_eq_aVar_succ {alpha beta : ℝ} (P : GenParams) (hα : 0 < alpha) (hβ : 0 < beta)
    (hg : P.g < P.n) {t : ℕ} (ht : P.g ≤ t) :
    activeAt (weibull_cdf alpha beta) P t = aVar (weibull_cdf alpha beta) P (t + 1) := by
  rcases eq_or_lt_of_le ht with h | h
  · rw [activeAt, if_pos (by rw [fixIdx_eq_g P hg, h]),
      loopA_eq_zero P hα hβ (le_of_eq h.symm), zero_add, aVar_succ,
      if_pos ((cdfAt_eq_zero_iff P hα hβ t).mpr (le_of_eq h.symm)),
      aVar_eq_A0 P hα hβ t (by omega)]
  · rw [activeAt, if_neg (by rw [fixIdx_eq_g P hg]; omega), aVar_succ,
      if_neg (cdfAt_ne_zero P hα hβ h)]

/-- Claim C4: within one generation's trajectory, at every age step after
installation, failure-disposed + degradation-disposed + next active area
equals the previous active area (local area conservation), and, the
repair/repowering fractions lying in [0,1] and the Weibull CDF having
positive shape and scale (so its values lie in [0,1]), the active area is
non-increasing at every age step except the installation step. -/
theorem c4_trajectory_conservation_monotone (alpha beta : ℝ) (P : GenParams)
    (hα : 0 < alpha) (hβ : 0 < beta) (hg : P.g < P.n) (hA0 : 0 ≤ P.A0)
    (hrep : ∀ t, P.repair t ∈ Set.Icc (0:ℝ) 1) (hrw : ∀ t, P.repower t ∈ Set.Icc (0:ℝ) 1) :
    (∀ t, P.g ≤ t →
      failAt (weibull_cdf alpha beta) P (t + 1) + degrAt (weibull_cdf alpha beta) P (t + 1)
        + activeAt (weibull_cdf alpha beta) P (t + 1)
      = activeAt (weibull_cdf alpha beta) P t) ∧
    (∀ t, t + 1 ≠ P.g →
      activeAt (weibull_cdf alpha beta) P (t + 1) ≤ activeAt (weibull_cdf alpha beta) P t) := by
  constructor
  · intro t ht
    have hne : cdfAt (weibull_cdf alpha beta) P (t + 1) ≠ 0 :=
      cdfAt_ne_zero P hα hβ (by omega)
    have hAct : activeAt (weibull_cdf alpha beta) P (t + 1)
        = loopA (weibull_cdf alpha beta) P (t + 1) := by
      rw [activeAt, if_neg (by rw [fixIdx_eq_g P hg]; omega)]
    have hRHS : activeAt (weibull_cdf alpha beta) P t
        = aVar (weibull_cdf alpha beta) P (t + 1) :=
      activeAt_eq_aVar_succ P hα hβ hg ht
    rw [hAct, hRHS, failAt, if_neg hne, degrAt, if_neg hne, loopA, if_neg hne]
    split_ifs with hL
    · ring
    · ring
  · intro t ht
    by_cases h : P.g ≤ t
    · have hAct : activeAt (weibull_cdf alpha beta) P (t + 1)
          = loopA (weibull_cdf alpha beta) P (t + 1) := by
        rw [activeAt, if_neg (by rw [fixIdx_eq_g P hg]; omega)]
      have hRHS : activeAt (weibull_cdf alpha beta) P t
          = aVar (weibull_cdf alpha beta) P (t + 1) :=
        activeAt_eq_aVar_succ P hα hβ hg h
      rw [hAct, hRHS]
      exact loopA_le_aVar alpha beta P hβ hA0 hrep hrw (t + 1)
    · push_neg at h
      have h1 : activeAt (weibull_cdf alpha beta) P (t + 1)
          = loopA (weibull_cdf alpha beta) P (t + 1) := by
        rw [activeAt, if_neg (by rw [fixIdx_eq_g P hg]; omega)]
      have h2 : activeAt (weibull_cdf alpha beta) P t
          = loopA (weibull_cdf alpha beta) P t := by
        rw [activeAt, if_neg (by rw [fixIdx_eq_g P hg]; omega)]
      rw [h1, h2, loopA_eq_zero P hα hβ (by omega), loopA_eq_zero P hα hβ (by omega)]

/-- Concrete generation used as the C4 witness input. -/
def c4exP : GenParams :=
  { n := 2, g := 0, A0 := 1, eff := 1, dr := 0, L := 5,
    repair := fun _ => 1/2, repower := fun _ => 1/2 }

/-- Witness for C4: a concrete two-year, one-generation scenario with
repair and repowering fractions 1/2 satisfies every hypothesis; area
conservation holds at the step right after installation. -/
theorem c4_trajectory_witness :
    failAt (weibull_cdf 1 1) c4exP 1 + degrAt (weibull_cdf 1 1) c4exP 1
        + activeAt (weibull_cdf 1 1) c4exP 1
      = activeAt (weibull_cdf 1 1) c4exP 0 :=
  (c4_trajectory_conservation_monotone 1 1 c4exP (by norm_num) (by norm_num)
    (by norm_num [c4exP]) (by norm_num [c4exP])
    (by intro t; rw [Set.mem_Icc]; constructor <;> norm_num [c4exP])
    (by intro t; rw [Set.mem_Icc]; constructor <;> norm_num [c4exP])).1 0 (le_refl _)

/-- Claim C5: a generation contributes nothing to the disposal cohort
matrix before its install year: for every year position y before the
generation index g, the matrix entry (failure + degradation disposal) is
exactly 0, because the clipped age is 0 there and the Weibull CDF
vanishes at 0. -/
theorem c5_upper_triangular (alpha beta : ℝ) (P : GenParams) (hα : 0 < alpha)
    (y : ℕ) (hy : y < P.g) :
    GenerationDisposedByYear (weibull_cdf alpha beta) P y = 0 := by
  have h0 : cdfAt (weibull_cdf alpha beta) P y = 0 := by
    rw [cdfAt, show xclip P y = 0 from by rw [xclip]; omega, Nat.cast_zero]
    exact weibull_cdf_zero beta (ne_of_gt hα)
  rw [GenerationDisposedByYear, failAt, if_pos h0, degrAt, if_pos h0, add_zero]

/-- Concrete generation used as the C5 witness input. -/
def c5exP : GenParams :=
  { n := 2, g := 1, A0 := 1, eff := 1, dr := 0, L := 5,
    repair := fun _ => 0, repower := fun _ => 0 }

/-- Witness for C5: the year before a concrete generation's install year
has a zero disposal-matrix entry. -/
theorem c5_upper_triangular_witness :
    GenerationDisposedByYear (weibull_cdf 1 1) c5exP 0 = 0 :=
  c5_upper_triangular 1 1 c5exP (by norm_num) 0 (by norm_num [c5exP])

/-- Concrete generation exhibiting the C7 power bug: two years, install
at position 0, initial area 1 m^2, module efficiency 100 %. -/
def c7exP : GenParams :=
  { n := 2, g := 0, A0 := 1, eff := 100, dr := 0, L := 5,
    repair := fun _ => 0, repower := fun _ => 0 }

/-- Claim C7 (bug evaluation): at the install index the source sets
`areapowergen[fix] = activeareacount[fix] + Area * mod_eff * 0.01 *
irradiance_stc`, where `activeareacount[fix]` is the already-incremented
ACTIVE AREA in m^2, not the recursively computed power.  For initial area
1 m^2 and efficiency 100 % the stored power is 1001 (area 1 leaking into
the power cell), while the claim's value - recursively computed power
plus A0 * eff * 0.01 * irradiance - is 1000. -/
theorem c7_install_power_bug :
    powerAt (weibull_cdf 1 1) c7exP 0 = 1001 ∧
    loopP (weibull_cdf 1 1) c7exP 0 + 1 * 100 * 0.01 * irradiance_stc = 1000 ∧
    (1001 : ℝ) ≠ 1000 := by
  have hfix : fixIdx c7exP = 0 := fixIdx_eq_g c7exP (by norm_num [c7exP])
  have h0 : cdfAt (weibull_cdf 1 1) c7exP 0 = 0 := by
    rw [cdfAt, show xclip c7exP 0 = 0 from rfl, Nat.cast_zero]
    exact weibull_cdf_zero 1 one_ne_zero
  have hla : loopA (weibull_cdf 1 1) c7exP 0 = 0 := by rw [loopA, if_pos h0]
  have hact : activeAt (weibull_cdf 1 1) c7exP 0 = 1 := by
    rw [activeAt, if_pos (by rw [hfix]), hla, zero_add]
    norm_num [c7exP]
  refine ⟨?_, ?_, by norm_num⟩
  · rw [powerAt, if_pos (by rw [hfix]), hact]
    norm_num [c7exP, irradiance_stc]
  · rw [loopP, if_pos h0, irradiance_stc]
    norm_num

/-- Claim C8: when no age inside the horizon has a nonzero CDF value, the
source's except branch runs: the full initial area is credited to the
LAST index of the active-area sequence, every other index keeps its loop
value, the power entry at the last index is set, and the condition is
surfaced through the branch's diagnostic print (modelled as the boolean
`degenerateDiag`) while the computation continues normally. -/
theorem c8_degenerate_cohort (alpha beta : ℝ) (P : GenParams)
    (hα : 0 < alpha) (hβ : 0 < beta) (hn : 0 < P.n)
    (h : ∀ i, i < P.n → cdfAt (weibull_cdf alpha beta) P i = 0) :
    degenerateDiag P = true ∧
    activeAt (weibull_cdf alpha beta) P (P.n - 1) = P.A0 ∧
    (∀ t, t ≠ P.n - 1 →
      activeAt (weibull_cdf alpha beta) P t = loopA (weibull_cdf alpha beta) P t) ∧
    powerAt (weibull_cdf alpha beta) P (P.n - 1)
      = P.A0 + P.A0 * P.eff * 0.01 * irradiance_stc := by
  have hgn : ¬ (P.g + 1 < P.n) := by
    intro hlt
    exact cdfAt_ne_zero P hα hβ (by omega : P.g < P.g + 1) (h (P.g + 1) hlt)
  have hfn : firstNonzeroIdx P = none := by rw [firstNonzeroIdx_eq, if_neg hgn]
  have hfix : fixIdx P = P.n - 1 := by rw [fixIdx, hfn]; rfl
  have hla : loopA (weibull_cdf alpha beta) P (P.n - 1) = 0 := by
    rw [loopA, if_pos (h (P.n - 1) (by omega))]
  have hact : activeAt (weibull_cdf alpha beta) P (P.n - 1) = P.A0 := by
    rw [activeAt, if_pos (by rw [hfix]), hla, zero_add]
  refine ⟨by rw [degenerateDiag, hfn]; rfl, hact, ?_, ?_⟩
  · intro t ht
    rw [activeAt, if_neg (by rw [hfix]; exact ht)]
  · rw [powerAt, if_pos (by rw [hfix]), hact]

/-- Concrete generation used as the C8 witness input: a one-year horizon,
so the only clipped age is 0 and the CDF list is identically zero. -/
def c8exP : GenParams :=
  { n := 1, g := 0, A0 := 1, eff := 1, dr := 0, L := 5,
    repair := fun _ => 0, repower := fun _ => 0 }

/-! ## Module EOL cascade (main.py lines 249-279)

The disposal cohort matrix `EOL` has one row per generation g and one
column per year position y (built from `Generation_Disposed_byYear`,
main.py line 237); it is abstracted here as `D : ℕ → ℕ → ℝ` together
with the number of generations `n`.  `EOL.mul(series.values * 0.01)`
multiplies column y by the rate of year y (the rate of the disposal
year), and `.sum()` produces the per-year column totals.  `c` is
`mod_EOL_collection_eff`, `r` is `mod_EOL_collected_recycled`. -/

/-- Matrix entry of `EOL_Collected` (main.py line 271). -/
def eolCollectedM (D : ℕ → ℕ → ℝ) (c : ℕ → ℝ) (g y : ℕ) : ℝ := D g y * (c y * 0.01)

/-- Matrix entry of `landfill_Collection` (main.py line 273). -/
def landfillCollectionM (D : ℕ → ℕ → ℝ) (c : ℕ → ℝ) (g y : ℕ) : ℝ :=
  D g y * (1 - c y * 0.01)

/-- Matrix entry of `EOL_Recycled` (main.py line 276). -/
def eolRecycledM (D : ℕ → ℕ → ℝ) (c r : ℕ → ℝ) (g y : ℕ) : ℝ :=
  eolCollectedM D c g y * (r y * 0.01)

/-- Matrix entry of `EOL_NotRecycled_Landfilled` (main.py line 278). -/
def eolNotRecycledLandfilledM (D : ℕ → ℕ → ℝ) (c r : ℕ → ℝ) (g y : ℕ) : ℝ :=
  eolCollectedM D c g y * (1 - r y * 0.01)

/-- Column total of the disposal matrix: all area disposed in year y. -/
def Disposal_total (n : ℕ) (D : ℕ → ℕ → ℝ) (y : ℕ) : ℝ := ∑ g in range n, D g y

/-- Column `EoL_Collected` (main.py line 272). -/
def EoL_Collected (n : ℕ) (D : ℕ → ℕ → ℝ) (c : ℕ → ℝ) (y : ℕ) : ℝ :=
  ∑ g in range n, eolCollectedM D c g y

/-- Column `EoL_NotCollected` (main.py line 274). -/
def EoL_NotCollected (n : ℕ) (D : ℕ → ℕ → ℝ) (c : ℕ → ℝ) (y : ℕ) : ℝ :=
  ∑ g in range n, landfillCollectionM D c g y

/-- Column `EoL_Recycled` (main.py line 277). -/
def EoL_Recycled (n : ℕ) (D : ℕ → ℕ → ℝ) (c r : ℕ → ℝ) (y : ℕ) : ℝ :=
  ∑ g in range n, eolRecycledM D c r g y

/-- Column `EoL_NotRecycled_Landfilled` (main.py line 279). -/
def EoL_NotRecycled_Landfilled (n : ℕ) (D : ℕ → ℕ → ℝ) (c r : ℕ → ℝ) (y : ℕ) : ℝ :=
  ∑ g in range n, eolNotRecycledLandfilledM D c r g y

/-! ## Material-flow cascade (main.py lines 292-376)

Matrix stages multiply row g by `mat_massperm2[g]` (`multiply(..., axis=0)`:
mass composition fixed at manufacture) and column y by the material rate
of year y (`.mul(values * 0.01)`); `.sum()` again yields per-year columns.
The bulk (manufacturing-scrap) stages are element-wise per-year series. -/

/-- Per-year material parameter columns of one material's baseline table. -/
structure MatParams where
  massperm2 : ℕ → ℝ
  EOL_collected_Recycled : ℕ → ℝ
  EOL_Recycled_into_HQ : ℕ → ℝ
  EOL_RecycledHQ_Reused4MFG : ℕ → ℝ
  MFG_eff : ℕ → ℝ
  MFG_scrap_recycled : ℕ → ℝ
  MFG_scrap_recycling_eff : ℕ → ℝ
  MFG_scrap_Recycled_into_HQ : ℕ → ℝ
  MFG_scrap_Recycled_into_HQ_Reused4MFG : ℕ → ℝ

/-- Matrix entry of `mat_modules_EOL_sentoRecycling` (main.py line 312). -/
def mat_modules_EOL_sentoRecyclingM (D : ℕ → ℕ → ℝ) (c r : ℕ → ℝ) (mt : MatParams)
    (g y : ℕ) : ℝ := eolRecycledM D c r g y * mt.massperm2 g

/-- Matrix entry of `mat_EOL_sento_Recycling` (main.py line 319). -/
def mat_EOL_sento_RecyclingM (D : ℕ → ℕ → ℝ) (c r : ℕ → ℝ) (mt : MatParams)
    (g y : ℕ) : ℝ :=
  mat_modules_EOL_sentoRecyclingM D c r mt g y * (mt.EOL_collected_Recycled y * 0.01)

/-- Matrix entry of `mat_EOL_Recycled_Succesfully` (main.py line 324):
note it multiplies by the SAME `mat_EOL_collected_Recycled` rate again. -/
def mat_EOL_Recycled_SuccesfullyM (D : ℕ → ℕ → ℝ) (c r : ℕ → ℝ) (mt : MatParams)
    (g y : ℕ) : ℝ :=
  mat_EOL_sento_RecyclingM D c r mt g y * (mt.EOL_collected_Recycled y * 0.01)

/-- Matrix entry of `mat_EOL_Recycled_HQ` (main.py line 330). -/
def mat_EOL_Recycled_HQM (D : ℕ → ℕ → ℝ) (c r : ℕ → ℝ) (mt : MatParams) (g y : ℕ) : ℝ :=
  mat_EOL_Recycled_SuccesfullyM D c r mt g y * (mt.EOL_Recycled_into_HQ y * 0.01)

/-- Column `mat_modules_NotRecycled` (main.py line 313). -/
def mat_modules_NotRecycled (n : ℕ) (D : ℕ → ℕ → ℝ) (c r : ℕ → ℝ) (mt : MatParams)
    (y : ℕ) : ℝ :=
  ∑ g in range n, eolNotRecycledLandfilledM D c r g y * mt.massperm2 g

/-- Column `mat_modules_NotCollected` (main.py line 314). -/
def mat_modules_NotCollected (n : ℕ) (D : ℕ → ℕ → ℝ) (c : ℕ → ℝ) (mt : MatParams)
    (y : ℕ) : ℝ :=
  ∑ g in range n, landfillCollectionM D c g y * mt.massperm2 g

/-- Column total of `mat_modules_EOL_sentoRecycling` (the recycled-module
material mass entering the material EOL cascade in year y). -/
def mat_modules_EOL_sentoRecycling_total (n : ℕ) (D : ℕ → ℕ → ℝ) (c r : ℕ → ℝ)
    (mt : MatParams) (y : ℕ) : ℝ :=
  ∑ g in range n, mat_modules_EOL_sentoRecyclingM D c r mt g y

/-- Column `mat_EOL_sento_Recycling` (main.py line 320). -/
def mat_EOL_sento_Recycling (n : ℕ) (D : ℕ → ℕ → ℝ) (c r : ℕ → ℝ) (mt : MatParams)
    (y : ℕ) : ℝ :=
  ∑ g in range n, mat_EOL_sento_RecyclingM D c r mt g y

/-- Column `mat_EOL_NotRecycled_Landfilled` (main.py lines 321-322). -/
def mat_EOL_NotRecycled_Landfilled (n : ℕ) (D : ℕ → ℕ → ℝ) (c r : ℕ → ℝ) (mt : MatParams)
    (y : ℕ) : ℝ :=
  ∑ g in range n,
    mat_modules_EOL_sentoRecyclingM D c r mt g y * (1 - mt.EOL_collected_Recycled y * 0.01)

/-- Column `mat_EOL_Recycled` (main.py line 325). -/
def mat_EOL_Recycled (n : ℕ) (D : ℕ → ℕ → ℝ) (c r : ℕ → ℝ) (mt : MatParams) (y : ℕ) : ℝ :=
  ∑ g in range n, mat_EOL_Recycled_SuccesfullyM D c r mt g y

/-- Column `mat_EOL_Recycled_Losses_Landfilled` (main.py lines 326-327). -/
def mat_EOL_Recycled_Losses_Landfilled (n : ℕ) (D : ℕ → ℕ → ℝ) (c r : ℕ → ℝ)
    (mt : MatParams) (y : ℕ) : ℝ :=
  ∑ g in range n,
    mat_EOL_sento_RecyclingM D c r mt g y * (1 - mt.EOL_collected_Recycled y * 0.01)

/-- Column `mat_EoL_Recycled_into_HQ` (main.py line 331). -/
def mat_EoL_Recycled_into_HQ (n : ℕ) (D : ℕ → ℕ → ℝ) (c r : ℕ → ℝ) (mt : MatParams)
    (y : ℕ) : ℝ :=
  ∑ g in range n, mat_EOL_Recycled_HQM D c r mt g y

/-- Column `mat_EoL_Recycled_into_OQ` (main.py lines 332-333). -/
def mat_EoL_Recycled_into_OQ (n : ℕ) (D : ℕ → ℕ → ℝ) (c r : ℕ → ℝ) (mt : MatParams)
    (y : ℕ) : ℝ :=
  ∑ g in range n,
    mat_EOL_Recycled_SuccesfullyM D c r mt g y * (1 - mt.EOL_Recycled_into_HQ y * 0.01)

/-- Column `mat_EoL_Recycled_HQ_into_MFG` (main.py lines 335-336). -/
def mat_EoL_Recycled_HQ_into_MFG (n : ℕ) (D : ℕ → ℕ → ℝ) (c r : ℕ → ℝ) (mt : MatParams)
    (y : ℕ) : ℝ :=
  ∑ g in range n, mat_EOL_Recycled_HQM D c r mt g y * (mt.EOL_RecycledHQ_Reused4MFG y * 0.01)

/-- Column `mat_EOL_Recycled_HQ_into_OU` (main.py lines 337-338). -/
def mat_EOL_Recycled_HQ_into_OU (n : ℕ) (D : ℕ → ℕ → ℝ) (c r : ℕ → ℝ) (mt : MatParams)
    (y : ℕ) : ℝ :=
  ∑ g in range n,
    mat_EOL_Recycled_HQM D c r mt g y * (1 - mt.EOL_RecycledHQ_Reused4MFG y * 0.01)

/-- Column `mat_Manufactured` (main.py line 341): current-year module area
times the material's mass per area. -/
def mat_Manufactured (Area : ℕ → ℝ) (mt : MatParams) (y : ℕ) : ℝ :=
  Area y * mt.massperm2 y

/-- Column `mat_Manufacturing_Input` (main.py line 342). -/
def mat_Manufacturing_Input (Area : ℕ → ℝ) (mt : MatParams) (y : ℕ) : ℝ :=
  mat_Manufactured Area mt y / (mt.MFG_eff y * 0.01)

/-- Column `mat_MFG_Scrap` exactly as the source computes it (main.py
line 343): `mat_Manufactured - mat_Manufacturing_Input`, which is
NEGATIVE whenever the manufacturing efficiency is below 100. -/
def mat_MFG_Scrap (Area : ℕ → ℝ) (mt : MatParams) (y : ℕ) : ℝ :=
  mat_Manufactured Area mt y - mat_Manufacturing_Input Area mt y

/-- Column `mat_MFG_Scrap_Sentto_Recycling` (main.py line 344). -/
def mat_MFG_Scrap_Sentto_Recycling (Area : ℕ → ℝ) (mt : MatParams) (y : ℕ) : ℝ :=
  mat_MFG_Scrap Area mt y * mt.MFG_scrap_recycled y * 0.01

/-- Column `mat_MFG_Scrap_Landfilled` (main.py line 345). -/
def mat_MFG_Scrap_Landfilled (Area : ℕ → ℝ) (mt : MatParams) (y : ℕ) : ℝ :=
  mat_MFG_Scrap Area mt y - mat_MFG_Scrap_Sentto_Recycling Area mt y

/-- Column `mat_MFG_Scrap_Recycled` (main.py lines 346-347). -/
def mat_MFG_Scrap_Recycled (Area : ℕ → ℝ) (mt : MatParams) (y : ℕ) : ℝ :=
  mat_MFG_Scrap_Sentto_Recycling Area mt y * mt.MFG_scrap_recycling_eff y * 0.01

/-- Column `mat_MFG_Scrap_Recycled_Losses_Landfilled` (main.py lines 348-349). -/
def mat_MFG_Scrap_Recycled_Losses_Landfilled (Area : ℕ → ℝ) (mt : MatParams) (y : ℕ) : ℝ :=
  mat_MFG_Scrap_Sentto_Recycling Area mt y - mat_MFG_Scrap_Recycled Area mt y

/-- Column `mat_MFG_Recycled_into_HQ` (main.py lines 350-351). -/
def mat_MFG_Recycled_into_HQ (Area : ℕ → ℝ) (mt : MatParams) (y : ℕ) : ℝ :=
  mat_MFG_Scrap_Recycled Area mt y * mt.MFG_scrap_Recycled_into_HQ y * 0.01

/-- Column `mat_MFG_Recycled_into_OQ` (main.py line 352). -/
def mat_MFG_Recycled_into_OQ (Area : ℕ → ℝ) (mt : MatParams) (y : ℕ) : ℝ :=
  mat_MFG_Scrap_Recycled Area mt y - mat_MFG_Recycled_into_HQ Area mt y

/-- Column `mat_MFG_Recycled_HQ_into_MFG` (main.py lines 353-354). -/
def mat_MFG_Recycled_HQ_into_MFG (Area : ℕ → ℝ) (mt : MatParams) (y : ℕ) : ℝ :=
  mat_MFG_Recycled_into_HQ Area mt y * mt.MFG_scrap_Recycled_into_HQ_Reused4MFG y * 0.01

/-- Column `mat_MFG_Recycled_HQ_into_OU` (main.py line 355). -/
def mat_MFG_Recycled_HQ_into_OU (Area : ℕ → ℝ) (mt : MatParams) (y : ℕ) : ℝ :=
  mat_MFG_Recycled_into_HQ Area mt y - mat_MFG_Recycled_HQ_into_MFG Area mt y

/-- Column `mat_Virgin_Stock` (main.py line 356). -/
def mat_Virgin_Stock (n : ℕ) (D : ℕ → ℕ → ℝ) (c r Area : ℕ → ℝ) (mt : MatParams)
    (y : ℕ) : ℝ :=
  mat_Manufacturing_Input Area mt y - mat_EoL_Recycled_HQ_into_MFG n D c r mt y
    - mat_MFG_Recycled_HQ_into_MFG Area mt y

/-- Column `mat_Total_EoL_Landfilled` (main.py lines 359-362): the source
sums FOUR end-of-life loss columns. -/
def mat_Total_EoL_Landfilled (n : ℕ) (D : ℕ → ℕ → ℝ) (c r : ℕ → ℝ) (mt : MatParams)
    (y : ℕ) : ℝ :=
  mat_modules_NotCollected n D c mt y + mat_modules_NotRecycled n D c r mt y
    + mat_EOL_NotRecycled_Landfilled n D c r mt y
    + mat_EOL_Recycled_Losses_Landfilled n D c r mt y

/-- Column `mat_Total_MFG_Landfilled` (main.py lines 364-365). -/
def mat_Total_MFG_Landfilled (Area : ℕ → ℝ) (mt : MatParams) (y : ℕ) : ℝ :=
  mat_MFG_Scrap_Landfilled Area mt y + mat_MFG_Scrap_Recycled_Losses_Landfilled Area mt y

/-- Column `mat_Total_Landfilled` (main.py lines 367-368). -/
def mat_Total_Landfilled (n : ℕ) (D : ℕ → ℕ → ℝ) (c r Area : ℕ → ℝ) (mt : MatParams)
    (y : ℕ) : ℝ :=
  mat_Total_EoL_Landfilled n D c r mt y + mat_Total_MFG_Landfilled Area mt y

/-- Column `mat_Total_Recycled_OU` (main.py lines 370-373). -/
def mat_Total_Recycled_OU (n : ℕ) (D : ℕ → ℕ → ℝ) (c r Area : ℕ → ℝ) (mt : MatParams)
    (y : ℕ) : ℝ :=
  mat_EoL_Recycled_into_OQ n D c r mt y + mat_EOL_Recycled_HQ_into_OU n D c r mt y
    + mat_MFG_Recycled_into_OQ Area mt y + mat_MFG_Recycled_HQ_into_OU Area mt y

/-- Total disposed material mass in year y (disposal matrix weighted by
the per-generation mass per area). -/
def disposedMass (n : ℕ) (D : ℕ → ℕ → ℝ) (mt : MatParams) (y : ℕ) : ℝ :=
  ∑ g in range n, D g y * mt.massperm2 g

/-- Everything successfully returned to use in year y: recycled into OQ,
HQ reused in manufacturing and HQ into other use, for both the EOL and
the manufacturing-scrap networks. -/
def mat_returned_to_use (n : ℕ) (D : ℕ → ℕ → ℝ) (c r Area : ℕ → ℝ) (mt : MatParams)
    (y : ℕ) : ℝ :=
  mat_EoL_Recycled_into_OQ n D c r mt y + mat_EoL_Recycled_HQ_into_MFG n D c r mt y
    + mat_EOL_Recycled_HQ_into_OU n D c r mt y
    + mat_MFG_Recycled_into_OQ Area mt y + mat_MFG_Recycled_HQ_into_MFG Area mt y
    + mat_MFG_Recycled_HQ_into_OU Area mt y

/-- Claim C6: for every year, collected plus not-collected equals the
total disposal and recycled plus not-recycled equals the collected total
(exact identities, hence within any tolerance); with collection
efficiency 100 % and recycled rate 0 % the collected column equals the
disposal total, the recycled column is 0, and everything collected lands
in EoL_NotRecycled_Landfilled. -/
theorem c6_eol_cascade (n : ℕ) (D : ℕ → ℕ → ℝ) (c r : ℕ → ℝ) (y : ℕ) :
    (EoL_Collected n D c y + EoL_NotCollected n D c y = Disposal_total n D y ∧
     EoL_Recycled n D c r y + EoL_NotRecycled_Landfilled n D c r y = EoL_Collected n D c y) ∧
    (c y = 100 → r y = 0 →
      EoL_Collected n D c y = Disposal_total n D y ∧
      EoL_Recycled n D c r y = 0 ∧
      EoL_NotRecycled_Landfilled n D c r y = EoL_Collected n D c y) := by
  refine ⟨⟨?_, ?_⟩, ?_⟩
  · rw [EoL_Collected, EoL_NotCollected, Disposal_total, ← Finset.sum_add_distrib]
    refine Finset.sum_congr rfl fun g _ => ?_
    rw [eolCollectedM, landfillCollectionM]
    ring
  · rw [EoL_Recycled, EoL_NotRecycled_Landfilled, EoL_Collected, ← Finset.sum_add_distrib]
    refine Finset.sum_congr rfl fun g _ => ?_
    rw [eolRecycledM, eolNotRecycledLandfilledM]
    ring
  · intro hc hr
    refine ⟨?_, ?_, ?_⟩
    · rw [EoL_Collected, Disposal_total]
      refine Finset.sum_congr rfl fun g _ => ?_
      rw [eolCollectedM, hc]
      norm_num
    · rw [EoL_Recycled]
      refine Finset.sum_eq_zero fun g _ => ?_
      rw [eolRecycledM, hr]
      norm_num
    · rw [EoL_NotRecycled_Landfilled, EoL_Collected]
      refine Finset.sum_congr rfl fun g _ => ?_
      rw [eolNotRecycledLandfilledM, hr]
      norm_num

/-- Witness for C6: a one-generation disposal matrix with full collection
and zero recycling satisfies the scenario hypotheses; the cascade routes
everything to the collected and not-recycled-landfilled columns. -/
theorem c6_eol_cascade_witness :
    EoL_Collected 1 (fun _ _ => (1:ℝ)) (fun _ => 100) 0
        = Disposal_total 1 (fun _ _ => (1:ℝ)) 0 ∧
    EoL_Recycled 1 (fun _ _ => (1:ℝ)) (fun _ => 100) (fun _ => 0) 0 = 0 ∧
    EoL_NotRecycled_Landfilled 1 (fun _ _ => (1:ℝ)) (fun _ => 100) (fun _ => 0) 0
        = EoL_Collected 1 (fun _ _ => (1:ℝ)) (fun _ => 100) 0 :=
  (c6_eol_cascade 1 (fun _ _ => (1:ℝ)) (fun _ => 100) (fun _ => 0) 0).2 rfl rfl

/-- Claim C10: the sent-to-recycling split and the successfully-recycled
split of the material EOL cascade both multiply by the same
`mat_EOL_collected_Recycled` rate, so the successfully recycled mass of
every year is the recycled-module mass of that year times the square of
that one rate (each application scaled by 0.01). -/
theorem c10_same_rate_squared (n : ℕ) (D : ℕ → ℕ → ℝ) (c r : ℕ → ℝ) (mt : MatParams)
    (y : ℕ) :
    mat_EOL_Recycled n D c r mt y
      = mat_modules_EOL_sentoRecycling_total n D c r mt y
        * (mt.EOL_collected_Recycled y * 0.01) ^ 2 ∧
    mat_EOL_sento_Recycling n D c r mt y
      = mat_modules_EOL_sentoRecycling_total n D c r mt y
        * (mt.EOL_collected_Recycled y * 0.01) := by
  constructor
  · rw [mat_EOL_Recycled, mat_modules_EOL_sentoRecycling_total, Finset.sum_mul]
    refine Finset.sum_congr rfl fun g _ => ?_
    rw [mat_EOL_Recycled_SuccesfullyM, mat_EOL_sento_RecyclingM]
    ring
  · rw [mat_EOL_sento_Recycling, mat_modules_EOL_sentoRecycling_total, Finset.sum_mul]
    refine Finset.sum_congr rfl fun g _ => ?_
    rw [mat_EOL_sento_RecyclingM]

/-- Material parameters exhibiting the C2 scrap-sign bug: mass per area 1,
manufacturing efficiency 50 %. -/
def c2exMt : MatParams :=
  { massperm2 := fun _ => 1, EOL_collected_Recycled := fun _ => 50,
    EOL_Recycled_into_HQ := fun _ => 50, EOL_RecycledHQ_Reused4MFG := fun _ => 50,
    MFG_eff := fun _ => 50, MFG_scrap_recycled := fun _ => 50,
    MFG_scrap_recycling_eff := fun _ => 50, MFG_scrap_Recycled_into_HQ := fun _ => 50,
    MFG_scrap_Recycled_into_HQ_Reused4MFG := fun _ => 50 }

/-- Claim C2 (bug evaluation): with one unit of manufactured mass and
50 % manufacturing efficiency, the manufacturing input is 2 as the claim
states, but the source computes `mat_MFG_Scrap = mat_Manufactured -
mat_Manufacturing_Input = -1`, the NEGATION of the claimed
`ManufacturingInput - Manufactured = 1 ≥ 0`. -/
theorem c2_scrap_sign_bug :
    mat_Manufactured (fun _ => 1) c2exMt 0 = 1 ∧
    mat_Manufacturing_Input (fun _ => 1) c2exMt 0 = 2 ∧
    mat_MFG_Scrap (fun _ => 1) c2exMt 0 = -1 ∧
    mat_Manufacturing_Input (fun _ => 1) c2exMt 0 - mat_Manufactured (fun _ => 1) c2exMt 0
      = 1 := by
  norm_num [mat_MFG_Scrap, mat_Manufacturing_Input, mat_Manufactured, c2exMt]

/-- Material parameters used in the C1 counterexample: every rate 50 %,
mass per area 1. -/
def c1exMt : MatParams :=
  { massperm2 := fun _ => 1, EOL_collected_Recycled := fun _ => 50,
    EOL_Recycled_into_HQ := fun _ => 50, EOL_RecycledHQ_Reused4MFG := fun _ => 50,
    MFG_eff := fun _ => 50, MFG_scrap_recycled := fun _ => 50,
    MFG_scrap_recycling_eff := fun _ => 50, MFG_scrap_Recycled_into_HQ := fun _ => 50,
    MFG_scrap_Recycled_into_HQ_Reused4MFG := fun _ => 50 }

/-- Claim C1 (counterexample): with one generation, unit disposal and area,
and every rate 50 %, the total landfilled column (0.1875) differs from
the claimed five-loss-point sum under BOTH readings of the claim's
"EOL_NotRecycled" term - the module-level not-recycled mass column
(sum 0.0625) or the material-level not-sent-to-recycling column
(sum -0.0625) - because the source cascade has SIX loss columns, not
five. -/
theorem c1_counterexample :
    mat_Total_Landfilled 1 (fun _ _ => 1) (fun _ => 50) (fun _ => 50) (fun _ => 1) c1exMt 0
      ≠ mat_modules_NotCollected 1 (fun _ _ => 1) (fun _ => 50) c1exMt 0
        + mat_modules_NotRecycled 1 (fun _ _ => 1) (fun _ => 50) (fun _ => 50) c1exMt 0
        + mat_EOL_Recycled_Losses_Landfilled 1 (fun _ _ => 1) (fun _ => 50) (fun _ => 50)
            c1exMt 0
        + mat_MFG_Scrap_Landfilled (fun _ => 1) c1exMt 0
        + mat_MFG_Scrap_Recycled_Losses_Landfilled (fun _ => 1) c1exMt 0 ∧
    mat_Total_Landfilled 1 (fun _ _ => 1) (fun _ => 50) (fun _ => 50) (fun _ => 1) c1exMt 0
      ≠ mat_modules_NotCollected 1 (fun _ _ => 1) (fun _ => 50) c1exMt 0
        + mat_EOL_NotRecycled_Landfilled 1 (fun _ _ => 1) (fun _ => 50) (fun _ => 50)
            c1exMt 0
        + mat_EOL_Recycled_Losses_Landfilled 1 (fun _ _ => 1) (fun _ => 50) (fun _ => 50)
            c1exMt 0
        + mat_MFG_Scrap_Landfilled (fun _ => 1) c1exMt 0
        + mat_MFG_Scrap_Recycled_Losses_Landfilled (fun _ => 1) c1exMt 0 := by
  constructor <;>
    norm_num [mat_Total_Landfilled, mat_Total_EoL_Landfilled, mat_Total_MFG_Landfilled,
      mat_modules_NotCollected, mat_modules_NotRecycled, mat_EOL_NotRecycled_Landfilled,
      mat_EOL_Recycled_Losses_Landfilled, mat_MFG_Scrap_Landfilled,
      mat_MFG_Scrap_Recycled_Losses_Landfilled, mat_MFG_Scrap_Sentto_Recycling,
      mat_MFG_Scrap_Recycled, mat_MFG_Scrap, mat_Manufacturing_Input, mat_Manufactured,
      mat_modules_EOL_sentoRecyclingM, mat_EOL_sento_RecyclingM,
      mat_EOL_Recycled_SuccesfullyM, eolRecycledM, eolCollectedM,
      eolNotRecycledLandfilledM, landfillCollectionM, c1exMt, Finset.sum_range_one]

/-- Claim C1 (amended): the total landfilled column is the sum of the SIX
loss columns of the source cascade (not-collected, module-level
not-recycled, material-level not-sent-to-recycling, EOL recycling
losses, scrap landfilled, scrap recycling losses), and full mass
conservation holds: total landfilled plus everything successfully
returned to use equals the total disposed material mass plus the
`mat_MFG_Scrap` column - for every material, every year, exactly. -/
theorem c1_mass_conservation (n : ℕ) (D : ℕ → ℕ → ℝ) (c r Area : ℕ → ℝ) (mt : MatParams)
    (y : ℕ) :
    mat_Total_Landfilled n D c r Area mt y
      = mat_modules_NotCollected n D c mt y + mat_modules_NotRecycled n D c r mt y
        + mat_EOL_NotRecycled_Landfilled n D c r mt y
        + mat_EOL_Recycled_Losses_Landfilled n D c r mt y
        + mat_MFG_Scrap_Landfilled Area mt y
        + mat_MFG_Scrap_Recycled_Losses_Landfilled Area mt y ∧
    mat_Total_Landfilled n D c r Area mt y + mat_returned_to_use n D c r Area mt y
      = disposedMass n D mt y + mat_MFG_Scrap Area mt y := by
  constructor
  · rw [mat_Total_Landfilled, mat_Total_EoL_Landfilled, mat_Total_MFG_Landfilled]
    ring
  · have hEOL : mat_modules_NotCollected n D c mt y + mat_modules_NotRecycled n D c r mt y
        + mat_EOL_NotRecycled_Landfilled n D c r mt y
        + mat_EOL_Recycled_Losses_Landfilled n D c r mt y
        + mat_EoL_Recycled_into_OQ n D c r mt y
        + mat_EoL_Recycled_HQ_into_MFG n D c r mt y
        + mat_EOL_Recycled_HQ_into_OU n D c r mt y
        = disposedMass n D mt y := by
      rw [mat_modules_NotCollected, mat_modules_NotRecycled,
        mat_EOL_NotRecycled_Landfilled, mat_EOL_Recycled_Losses_Landfilled,
        mat_EoL_Recycled_into_OQ, mat_EoL_Recycled_HQ_into_MFG,
        mat_EOL_Recycled_HQ_into_OU, disposedMass,
        ← Finset.sum_add_distrib, ← Finset.sum_add_distrib, ← Finset.sum_add_distrib,
        ← Finset.sum_add_distrib, ← Finset.sum_add_distrib, ← Finset.sum_add_distrib]
      refine Finset.sum_congr rfl fun g _ => ?_
      rw [mat_EOL_Recycled_HQM, mat_EOL_Recycled_SuccesfullyM, mat_EOL_sento_RecyclingM,
        mat_modules_EOL_sentoRecyclingM, eolRecycledM, eolNotRecycledLandfilledM,
        eolCollectedM, landfillCollectionM]
      ring
    have hMFG : mat_MFG_Scrap_Landfilled Area mt y
        + mat_MFG_Scrap_Recycled_Losses_Landfilled Area mt y
        + mat_MFG_Recycled_into_OQ Area mt y + mat_MFG_Recycled_HQ_into_MFG Area mt y
        + mat_MFG_Recycled_HQ_into_OU Area mt y
        = mat_MFG_Scrap Area mt y := by
      simp only [mat_MFG_Scrap_Landfilled, mat_MFG_Scrap_Recycled_Losses_Landfilled,
        mat_MFG_Recycled_into_OQ, mat_MFG_Recycled_HQ_into_OU,
        mat_MFG_Recycled_HQ_into_MFG, mat_MFG_Recycled_into_HQ]
      ring
    rw [mat_Total_Landfilled, mat_Total_EoL_Landfilled, mat_Total_MFG_Landfilled,
      mat_returned_to_use]
    linarith

/-! ## Frame effect of calculateMassFlow on the caller-owned tables
(main.py lines 136-296)

In the source, `df = self.scenario[scen].data` binds the caller-owned
module DataFrame and every column assignment up to line 232 mutates that
object in place: the renamed/rescaled columns (lines 146-148), `Area`
(151-152), and the five cumulative columns (159-163, 225-232).  Only at
line 241/246 is `df` rebound to a new filtered/joined frame, to which
the EoL columns are then added and which replaces the stored table at
line 281.  The material loop binds `dm = ...materialdata` (line 296) and
writes EVERY computed material column into that caller-owned object in
place (lines 313-373); line 376 stores the same object back.

A table is modelled as an association list of named year-series; pandas
column assignment `setCol` overwrites an existing column or appends a
new one at the end.  `callerModuleTableAfter` / `callerMaterialTableAfter`
are the states of the caller-owned objects after the call. -/

/-- A pandas DataFrame: named columns of year-indexed real series. -/
abbrev DataTable := List (String × (ℕ → ℝ))

/-- Column lookup, `df[name]`. -/
def getCol : DataTable → String → Option (ℕ → ℝ)
  | [], _ => none
  | p :: rest, nm => if p.1 == nm then some p.2 else getCol rest nm

/-- Column assignment `df[name] = v`: overwrite in place when the column
exists, append otherwise. -/
def setCol (t : DataTable) (nm : String) (v : ℕ → ℝ) : DataTable :=
  if t.any fun p => p.1 == nm then t.map fun p => if p.1 == nm then (nm, v) else p
  else t ++ [(nm, v)]

/-- A sequence of column assignments, in program order. -/
def setCols : DataTable → List (String × (ℕ → ℝ)) → DataTable
  | t, [] => t
  | t, (nm, v) :: rest => setCols (setCol t nm v) rest

/-- Per-year module parameter columns of the scenario baseline table. -/
structure ModParams where
  n : ℕ
  capMW : ℕ → ℝ
  eff : ℕ → ℝ
  t50 : ℕ → ℝ
  t90 : ℕ → ℝ
  L : ℕ → ℝ
  dr : ℕ → ℝ
  repair : ℕ → ℝ
  repower : ℕ → ℝ

/-- Column `Area` (main.py line 151): installed W / (eff * 0.01) /
irradiance; `fillna(0)` is the identity in the exact-real model. -/
def AreaOf (M : ModParams) (y : ℕ) : ℝ :=
  M.capMW y * 1e6 / (M.eff y * 0.01) / irradiance_stc

/-- The per-generation Weibull CDF, fitted from the generation's own
t50/t90 keypoints (main.py line 170). -/
def fOf (M : ModParams) (g : ℕ) : ℝ → ℝ :=
  weibull_cdf (weibull_params_alpha (M.t50 g) 0.5 (M.t90 g) 0.9)
    (weibull_params_beta (M.t50 g) 0.5 (M.t90 g) 0.9)

/-- The GenParams of generation g, read from the install-year row. -/
def PgOf (M : ModParams) (g : ℕ) : GenParams :=
  { n := M.n, g := g, A0 := AreaOf M g, eff := M.eff g, dr := M.dr g, L := M.L g,
    repair := M.repair, repower := M.repower }

/-- Column `Cumulative_Area_disposedby_Failure` (main.py lines 159, 225). -/
def cumFail (M : ModParams) (y : ℕ) : ℝ :=
  ∑ g in range M.n, failAt (fOf M g) (PgOf M g) y

/-- Column `Cumulative_Area_disposedby_Degradation` (main.py lines 160, 226). -/
def cumDegr (M : ModParams) (y : ℕ) : ℝ :=
  ∑ g in range M.n, degrAt (fOf M g) (PgOf M g) y

/-- Column `Cumulative_Active_Area` (main.py lines 162, 231). -/
def cumActive (M : ModParams) (y : ℕ) : ℝ :=
  ∑ g in range M.n, activeAt (fOf M g) (PgOf M g) y

/-- Column `Cumulative_Power_[W]` (main.py lines 163, 232). -/
def cumPower (M : ModParams) (y : ℕ) : ℝ :=
  ∑ g in range M.n, powerAt (fOf M g) (PgOf M g) y

/-- The column assignments that hit the caller-owned module table in
place, in program order (main.py lines 146-232). -/
def moduleInPlaceCols (M : ModParams) : List (String × (ℕ → ℝ)) :=
  [("new_Installed_Capacity_[W]", fun y => M.capMW y * 1e6),
   ("t50", M.t50),
   ("t90", M.t90),
   ("Area", AreaOf M),
   ("Cumulative_Area_disposedby_Failure", cumFail M),
   ("Cumulative_Area_disposedby_Degradation", cumDegr M),
   ("Cumulative_Area_disposed", fun y => cumFail M y + cumDegr M y),
   ("Cumulative_Active_Area", cumActive M),
   ("Cumulative_Power_[W]", cumPower M)]

/-- The column assignments written into the caller-owned material table
in place, in program order (main.py lines 313-373). -/
def materialComputedCols (n : ℕ) (D : ℕ → ℕ → ℝ) (c r Area : ℕ → ℝ) (mt : MatParams) :
    List (String × (ℕ → ℝ)) :=
  [("mat_modules_NotRecycled", mat_modules_NotRecycled n D c r mt),
   ("mat_modules_NotCollected", mat_modules_NotCollected n D c mt),
   ("mat_EOL_sento_Recycling", mat_EOL_sento_Recycling n D c r mt),
   ("mat_EOL_NotRecycled_Landfilled", mat_EOL_NotRecycled_Landfilled n D c r mt),
   ("mat_EOL_Recycled", mat_EOL_Recycled n D c r mt),
   ("mat_EOL_Recycled_Losses_Landfilled", mat_EOL_Recycled_Losses_Landfilled n D c r mt),
   ("mat_EoL_Recycled_into_HQ", mat_EoL_Recycled_into_HQ n D c r mt),
   ("mat_EoL_Recycled_into_OQ", mat_EoL_Recycled_into_OQ n D c r mt),
   ("mat_EoL_Recycled_HQ_into_MFG", mat_EoL_Recycled_HQ_into_MFG n D c r mt),
   ("mat_EOL_Recycled_HQ_into_OU", mat_EOL_Recycled_HQ_into_OU n D c r mt),
   ("mat_Manufactured", mat_Manufactured Area mt),
   ("mat_Manufacturing_Input", mat_Manufacturing_Input Area mt),
   ("mat_MFG_Scrap", mat_MFG_Scrap Area mt),
   ("mat_MFG_Scrap_Sentto_Recycling", mat_MFG_Scrap_Sentto_Recycling Area mt),
   ("mat_MFG_Scrap_Landfilled", mat_MFG_Scrap_Landfilled Area mt),
   ("mat_MFG_Scrap_Recycled", mat_MFG_Scrap_Recycled Area mt),
   ("mat_MFG_Scrap_Recycled_Losses_Landfilled",
     mat_MFG_Scrap_Recycled_Losses_Landfilled Area mt),
   ("mat_MFG_Recycled_into_HQ", mat_MFG_Recycled_into_HQ Area mt),
   ("mat_MFG_Recycled_into_OQ", mat_MFG_Recycled_into_OQ Area mt),
   ("mat_MFG_Recycled_HQ_into_MFG", mat_MFG_Recycled_HQ_into_MFG Area mt),
   ("mat_MFG_Recycled_HQ_into_OU", mat_MFG_Recycled_HQ_into_OU Area mt),
   ("mat_Virgin_Stock", mat_Virgin_Stock n D c r Area mt),
   ("mat_Total_EoL_Landfilled", mat_Total_EoL_Landfilled n D c r mt),
   ("mat_Total_MFG_Landfilled", mat_Total_MFG_Landfilled Area mt),
   ("mat_Total_Landfilled", mat_Total_Landfilled n D c r Area mt),
   ("mat_Total_Recycled_OU", mat_Total_Recycled_OU n D c r Area mt)]

/-- State of the caller-owned module table object after the call. -/
def callerModuleTableAfter (t : DataTable) (M : ModParams) : DataTable :=
  setCols t (moduleInPlaceCols M)

/-- State of the caller-owned material table object after the call. -/
def callerMaterialTableAfter (t : DataTable) (n : ℕ) (D : ℕ → ℕ → ℝ) (c r Area : ℕ → ℝ)
    (mt : MatParams) : DataTable :=
  setCols t (materialComputedCols n D c r Area mt)

lemma getCol_append_of_isSome {t : DataTable} (s : DataTable) (nm : String)
    (h : (getCol t nm).isSome = true) : getCol (t ++ s) nm = getCol t nm := by
  induction t with
  | nil => rw [getCol] at h; exact absurd h (by simp)
  | cons p rest ih =>
    rw [List.cons_append, getCol]
    rw [getCol] at h
    split_ifs with hp
    · rw [getCol, if_pos hp]
    · rw [if_neg hp] at h
      rw [getCol, if_neg hp]
      exact ih h

lemma setCol_of_fresh {t : DataTable} {nm : String}
    (h : ∀ p ∈ t, p.1 ≠ nm) (v : ℕ → ℝ) : setCol t nm v = t ++ [(nm, v)] := by
  rw [setCol, if_neg]
  rw [Bool.not_eq_true, List.any_eq_false]
  intro p hp
  simp [h p hp]

lemma setCols_of_fresh (cols : List (String × (ℕ → ℝ))) : ∀ t : DataTable,
    (∀ p ∈ t, p.1 ∉ cols.map Prod.fst) → (cols.map Prod.fst).Nodup →
    setCols t cols = t ++ cols := by
  induction cols with
  | nil => intro t _ _; rw [setCols, List.append_nil]
  | cons cHead rest ih =>
    intro t hfresh hnd
    obtain ⟨nm, v⟩ := cHead
    rw [setCols, setCol_of_fresh (fun p hp => by
      have := hfresh p hp
      simp only [List.map_cons, List.mem_cons] at this
      push_neg at this
      exact this.1)]
    rw [List.map_cons, List.nodup_cons] at hnd
    rw [ih (t ++ [(nm, v)]) ?_ hnd.2, List.append_assoc, List.singleton_append]
    intro p hp
    rcases List.mem_append.mp hp with hp | hp
    · have := hfresh p hp
      simp only [List.map_cons, List.mem_cons] at this
      push_neg at this
      exact this.2
    · rw [List.mem_singleton.mp hp]
      exact hnd.1

/-- Claim C9 (amended): provided none of the computed column names is
already an input column, every pre-existing column of the caller-owned
module and material tables keeps its values after the call, BUT the call
does write its computed columns into the caller-owned objects in place:
the module table ends with the renamed, area and cumulative columns
appended, and the material table ends with every computed material
column appended. -/
theorem c9_frame_in_place (tmod : DataTable) (M : ModParams) (tmat : DataTable)
    (n : ℕ) (D : ℕ → ℕ → ℝ) (c r Area : ℕ → ℝ) (mt : MatParams)
    (hmod : ∀ p ∈ tmod, p.1 ∉ (moduleInPlaceCols M).map Prod.fst)
    (hmat : ∀ p ∈ tmat, p.1 ∉ (materialComputedCols n D c r Area mt).map Prod.fst) :
    callerModuleTableAfter tmod M = tmod ++ moduleInPlaceCols M ∧
    callerMaterialTableAfter tmat n D c r Area mt
      = tmat ++ materialComputedCols n D c r Area mt ∧
    (∀ nm, (getCol tmod nm).isSome = true →
      getCol (callerModuleTableAfter tmod M) nm = getCol tmod nm) ∧
    (∀ nm, (getCol tmat nm).isSome = true →
      getCol (callerMaterialTableAfter tmat n D c r Area mt) nm = getCol tmat nm) := by
  have hmodnd : ((moduleInPlaceCols M).map Prod.fst).Nodup := by
    rw [moduleInPlaceCols]
    simp only [List.map_cons, List.map_nil]
    decide
  have hmatnd : ((materialComputedCols n D c r Area mt).map Prod.fst).Nodup := by
    rw [materialComputedCols]
    simp only [List.map_cons, List.map_nil]
    decide
  have h1 : callerModuleTableAfter tmod M = tmod ++ moduleInPlaceCols M :=
    setCols_of_fresh _ _ hmod hmodnd
  have h2 : callerMaterialTableAfter tmat n D c r Area mt
      = tmat ++ materialComputedCols n D c r Area mt :=
    setCols_of_fresh _ _ hmat hmatnd
  refine ⟨h1, h2, ?_, ?_⟩
  · intro nm hs
    rw [h1, getCol_append_of_isSome _ nm hs]
  · intro nm hs
    rw [h2, getCol_append_of_isSome _ nm hs]

/-- Concrete module parameters for the C9 inputs. -/
def c9exM : ModParams :=
  { n := 1, capMW := fun _ => 1, eff := fun _ => 1, t50 := fun _ => 1, t90 := fun _ => 2,
    L := fun _ => 1, dr := fun _ => 0, repair := fun _ => 0, repower := fun _ => 0 }

/-- Concrete material parameters for the C9 inputs. -/
def c9exMt : MatParams :=
  { massperm2 := fun _ => 1, EOL_collected_Recycled := fun _ => 1,
    EOL_Recycled_into_HQ := fun _ => 1, EOL_RecycledHQ_Reused4MFG := fun _ => 1,
    MFG_eff := fun _ => 1, MFG_scrap_recycled := fun _ => 1,
    MFG_scrap_recycling_eff := fun _ => 1, MFG_scrap_Recycled_into_HQ := fun _ => 1,
    MFG_scrap_Recycled_into_HQ_Reused4MFG := fun _ => 1 }

/-- Claim C9 (counterexample): for a concrete caller-owned module table
holding only a `year` column and a material table likewise, the call
leaves computed columns (`Area`, `mat_MFG_Scrap`) inside the caller-owned
objects, so the objects after the call differ from the inputs - the
claim's "no computed column is written into the caller-owned input
structure in place" is false. -/
theorem c9_counterexample :
    getCol [("year", fun _ => (0:ℝ))] "Area" = none ∧
    getCol (callerModuleTableAfter [("year", fun _ => (0:ℝ))] c9exM) "Area"
      = some (AreaOf c9exM) ∧
    callerModuleTableAfter [("year", fun _ => (0:ℝ))] c9exM ≠ [("year", fun _ => (0:ℝ))] ∧
    getCol [("year", fun _ => (0:ℝ))] "mat_MFG_Scrap" = none ∧
    getCol (callerMaterialTableAfter [("year", fun _ => (0:ℝ))] 1 (fun _ _ => 1)
        (fun _ => 1) (fun _ => 1) (fun _ => 1) c9exMt) "mat_MFG_Scrap"
      = some (mat_MFG_Scrap (fun _ => 1) c9exMt) ∧
    callerMaterialTableAfter [("year", fun _ => (0:ℝ))] 1 (fun _ _ => 1)
        (fun _ => 1) (fun _ => 1) (fun _ => 1) c9exMt ≠ [("year", fun _ => (0:ℝ))] := by
  refine ⟨rfl, rfl, ?_, rfl, rfl, ?_⟩
  · intro h
    have h2 := congrArg (fun t => (getCol t "Area").isSome) h
    simp only at h2
    rw [show getCol (callerModuleTableAfter [("year", fun _ => (0:ℝ))] c9exM) "Area"
        = some (AreaOf c9exM) from rfl,
      show getCol [("year", fun _ => (0:ℝ))] "Area" = none from rfl] at h2
    simp at h2
  · intro h
    have h2 := congrArg (fun t => (getCol t "mat_MFG_Scrap").isSome) h
    simp only at h2
    rw [show getCol (callerMaterialTableAfter [("year", fun _ => (0:ℝ))] 1 (fun _ _ => 1)
          (fun _ => 1) (fun _ => 1) (fun _ => 1) c9exMt) "mat_MFG_Scrap"
        = some (mat_MFG_Scrap (fun _ => 1) c9exMt) from rfl,
      show getCol [("year", fun _ => (0:ℝ))] "mat_MFG_Scrap" = none from rfl] at h2
    simp at h2

/-- Witness for C9 (amended theorem): the concrete inputs satisfy the
freshness hypotheses; the caller-owned module table ends as the input
with the computed columns appended, and its pre-existing `year` column
is unchanged. -/
theorem c9_frame_in_place_witness :
    callerModuleTableAfter [("year", fun _ => (0:ℝ))] c9exM
      = [("year", fun _ => (0:ℝ))] ++ moduleInPlaceCols c9exM ∧
    getCol (callerModuleTableAfter [("year", fun _ => (0:ℝ))] c9exM) "year"
      = getCol [("year", fun _ => (0:ℝ))] "year" := by
  have h := c9_frame_in_place [("year", fun _ => (0:ℝ))] c9exM [("year", fun _ => (0:ℝ))]
    1 (fun _ _ => 1) (fun _ => 1) (fun _ => 1) (fun _ => 1) c9exMt
    (by
      intro p hp
      rw [List.mem_singleton.mp hp]
      rw [moduleInPlaceCols]
      decide)
    (by
      intro p hp
      rw [List.mem_singleton.mp hp]
      rw [materialComputedCols]
      decide)
  exact ⟨h.1, h.2.2.1 "year" rfl⟩

/-- Witness for C8: the concrete degenerate cohort raises the diagnostic
and credits its initial area to the last index. -/
theorem c8_degenerate_cohort_witness :
    degenerateDiag c8exP = true ∧
    activeAt (weibull_cdf 1 1) c8exP (c8exP.n - 1) = c8exP.A0 :=
  have h := c8_degenerate_cohort 1 1 c8exP (by norm_num) (by norm_num)
    (by norm_num [c8exP])
    (by
      intro i hi
      have hi0 : i = 0 := by
        have hn1 : c8exP.n = 1 := rfl
        omega
      subst hi0
      rw [cdfAt, show xclip c8exP 0 = 0 from rfl, Nat.cast_zero]
      exact weibull_cdf_zero 1 one_ne_zero)
  ⟨h.1, h.2.1⟩

end
